import Mathlib

/-!
Shallow embedding of the Aletheia WhatsApp bot (`whatsapp-bot/main.go`).

The bot is a message relay: it receives inbound WhatsApp message events,
extracts text or image payloads, calls an HTTP analysis backend, and sends a
formatted verdict card (or a fixed error string) as a quoted reply.

Modelling conventions:
* Go `float64` fields (the backend confidence) are embedded as `ℚ`; the Go
  conversion `int(x)` (truncation toward zero) is `goTrunc`.
* Go `len(s)` on a string is its UTF-8 byte count, embedded as
  `String.utf8ByteSize`.
* The side effects of a handler (backend HTTP calls, outbound sends) are
  reified as a list of `BotAction`s returned by the handler; the outcome of
  the network is an explicit oracle argument (`HTTPOutcome`,
  `DownloadOutcome`) so the handlers stay pure.
* Log lines written with `fmt.Printf` are not modelled.
-/

namespace Aletheia

/-- `AnalyzeResponse` (main.go lines 35-44): the JSON verdict returned by the
backend. `Confidence` is a Go `float64`, embedded as `ℚ`. -/
structure AnalyzeResponse where
  is_misinformation : Bool
  confidence : ℚ
  is_news : Bool
  summary : String
  evidence : List String
  sources_checked : List String
  recommendation : String
  message_type : String
deriving DecidableEq, Repr

/-- The inbound WhatsApp message payload: `GetImageMessage() != nil`,
`GetConversation()`, and the optional extended text message's text. -/
structure WAMessage where
  imageMessage : Bool
  conversation : String
  extendedText : Option String
deriving DecidableEq, Repr

/-- `evt.Info`: message id, sender JID (as a string), chat JID, and the
`IsFromMe` flag. -/
structure MessageInfo where
  id : String
  sender : String
  chat : String
  isFromMe : Bool
deriving DecidableEq, Repr

/-- An `events.Message`: its info and its payload. -/
structure MessageEvent where
  info : MessageInfo
  message : WAMessage
deriving DecidableEq, Repr

/-- `waE2E.ContextInfo` as built in `sendMessage` (main.go lines 282-286):
stanza id and participant of the quoted message, plus the quoted message
itself. -/
structure ContextInfo where
  stanzaID : String
  participant : String
  quotedMessage : WAMessage
deriving DecidableEq, Repr

/-- The outbound `waE2E.Message`: an extended text message carrying the
reply text and the quoting context info (main.go lines 288-293). -/
structure OutboundMessage where
  text : String
  contextInfo : ContextInfo
deriving DecidableEq, Repr

/-- `sendMessage` (main.go lines 280-299): constructs the outbound quoted
reply for an event. The actual network send (and its logged-only error) is
not modelled; the constructed message is what the claims are about. -/
def sendMessage (evt : MessageEvent) (text : String) : OutboundMessage :=
  { text := text,
    contextInfo :=
      { stanzaID := evt.info.id,
        participant := evt.info.sender,
        quotedMessage := evt.message } }

/-- One observable side effect of a handler: an HTTP call to the backend
text endpoint, an HTTP call to the backend image endpoint, or an outbound
send to a chat. -/
inductive BotAction where
  | callTextBackend (text : String)
  | callImageBackend (data : List Nat)
  | sendReply (chat : String) (msg : OutboundMessage)
deriving DecidableEq, Repr

/-- Whether a `BotAction` is an outbound send. -/
def isSendAction : BotAction → Bool
  | BotAction.sendReply _ _ => true
  | _ => false

/-- Outcome oracle for one HTTP POST to the backend: either a network error,
or a response with a status code and a body that either decodes to an
`AnalyzeResponse` or fails to decode. -/
inductive HTTPOutcome where
  | networkError
  | response (status : Nat) (body : Option AnalyzeResponse)
deriving DecidableEq, Repr

/-- Outcome oracle for `client.Download` of an image. -/
inductive DownloadOutcome where
  | ok (data : List Nat)
  | err
deriving DecidableEq, Repr

/-- `analyzeText` (main.go lines 65-92): POSTs the text to
`/analyze/text`; network error, non-200 status and decode failure each
return an error. (Marshalling of `AnalyzeRequest{Text: text}` cannot fail
for a plain string field and is not modelled as fallible.) -/
def analyzeText (text : String) (http : HTTPOutcome) :
    Except String AnalyzeResponse :=
  match http with
  | HTTPOutcome.networkError => Except.error "failed to call backend"
  | HTTPOutcome.response status body =>
    if status ≠ 200 then
      Except.error ("backend returned status " ++ toString status)
    else
      match body with
      | some result => Except.ok result
      | none => Except.error "failed to decode response"

/-- `analyzeImage` (main.go lines 159-202): POSTs the image bytes as a
multipart form to `/analyze/image`; same failure structure as
`analyzeText`. (The in-memory multipart writer errors cannot occur for a
`bytes.Buffer` and are not modelled as fallible.) -/
def analyzeImage (imageData : List Nat) (http : HTTPOutcome) :
    Except String AnalyzeResponse :=
  match http with
  | HTTPOutcome.networkError => Except.error "failed to call backend"
  | HTTPOutcome.response status body =>
    if status ≠ 200 then
      Except.error ("backend returned status " ++ toString status)
    else
      match body with
      | some result => Except.ok result
      | none => Except.error "failed to decode response"

/-- Go conversion `int(q)` for a `float64`: truncation toward zero. -/
def goTrunc (q : ℚ) : Int :=
  if q < 0 then -Int.floor (-q) else Int.floor q

/-- The emoji/status pair chosen in `formatResponse` (main.go lines
96-109): `🚨 LIKELY MISINFORMATION` when misinformation with confidence
strictly above `0.7`, `⚠️ POTENTIALLY MISLEADING` when misinformation
otherwise, `✅ APPEARS CREDIBLE` when not misinformation. -/
def verdictEmojiStatus (result : AnalyzeResponse) : String × String :=
  if result.is_misinformation then
    if result.confidence > 7/10 then
      ("🚨", "LIKELY MISINFORMATION")
    else
      ("⚠️", "POTENTIALLY MISLEADING")
  else
    ("✅", "APPEARS CREDIBLE")

/-- The confidence-bar loop (main.go lines 112-120): ten iterations, a
filled block `█` while `i < filled`, an empty block `░` afterwards. Each
block is one unicode character. -/
def confidenceBar (filled : Int) : String :=
  String.mk ((List.range 10).map (fun i => if (i : Int) < filled then '█' else '░'))

/-- `%.0f` formatting of a `float64`: round to nearest integer, ties to
even, then print the integer. -/
def fmtF0 (q : ℚ) : String :=
  let f := Int.floor q
  let n := if q - f < 1/2 then f
           else if q - f > 1/2 then f + 1
           else if f % 2 = 0 then f else f + 1
  toString n

/-- The bullet loop of `formatResponse` (main.go lines 131-136 and
141-146): `for i, e := range list`, `break` once `i >= 3`, otherwise
append `• e\n`. `i` is the running index. -/
def bulletItems : Nat → List String → List String
  | _, [] => []
  | i, e :: rest =>
    if i ≥ 3 then []
    else ("• " ++ e ++ "\n") :: bulletItems (i + 1) rest

/-- Header of the card: `emoji *STATUS*`. -/
def cardHeader (result : AnalyzeResponse) : String :=
  (verdictEmojiStatus result).1 ++ " *" ++ (verdictEmojiStatus result).2 ++ "*"

/-- Confidence line of the card: the bar with `int(confidence*10)` filled
blocks and the `%.0f` percentage (main.go lines 122-123). -/
def confidenceLine (result : AnalyzeResponse) : String :=
  "\n\n*Confidence:* [" ++ confidenceBar (goTrunc (result.confidence * 10))
    ++ "] " ++ fmtF0 (result.confidence * 100) ++ "%\n"

/-- Summary section, appended only when `Summary` is non-empty (main.go
lines 125-127). -/
def summarySection (result : AnalyzeResponse) : String :=
  if result.summary ≠ "" then "\n*Summary:*\n" ++ result.summary ++ "\n" else ""

/-- Evidence section, appended only when `Evidence` is non-empty, with at
most three bullets (main.go lines 129-137). -/
def evidenceSection (result : AnalyzeResponse) : String :=
  if result.evidence.length > 0 then
    "\n*Evidence:*\n" ++ String.join (bulletItems 0 result.evidence)
  else ""

/-- Sources section, appended only when `SourcesChecked` is non-empty, with
at most three bullets (main.go lines 139-147). -/
def sourcesSection (result : AnalyzeResponse) : String :=
  if result.sources_checked.length > 0 then
    "\n*Sources:*\n" ++ String.join (bulletItems 0 result.sources_checked)
  else ""

/-- Recommendation section, appended only when `Recommendation` is
non-empty (main.go lines 149-151). -/
def recommendationSection (result : AnalyzeResponse) : String :=
  if result.recommendation ≠ "" then
    "\n*Recommendation:*\n" ++ result.recommendation ++ "\n"
  else ""

/-- `formatResponse` (main.go lines 95-156): the full verdict card. -/
def formatResponse (result : AnalyzeResponse) : String :=
  cardHeader result
    ++ confidenceLine result
    ++ summarySection result
    ++ evidenceSection result
    ++ sourcesSection result
    ++ recommendationSection result
    ++ "\n_Always verify important news from multiple credible sources._"

/-- Fixed error string sent when the text backend call fails (main.go line
234). -/
def errTextBackend : String :=
  "❌ *Error*\n\nCould not connect to the analysis backend. Please try again later."

/-- Fixed error string sent when the image download fails (main.go line
262). -/
def errDownload : String :=
  "❌ *Error*\n\nCould not download the image. Please try again."

/-- Fixed error string sent when the image backend call fails (main.go line
270). -/
def errImageAnalyze : String :=
  "❌ *Error*\n\nCould not analyze the image. Please try again later."

/-- Text extraction (main.go lines 215-221): the conversation text if
non-empty, else the extended text message's text if present, else `""`. -/
def extractText (msg : WAMessage) : String :=
  if msg.conversation ≠ "" then msg.conversation
  else
    match msg.extendedText with
    | some t => t
    | none => ""

/-- `handleImageMessage` (main.go lines 250-277): download the image (fixed
error reply on failure), call the image backend (fixed error reply on
failure), otherwise send the formatted card — with no `is_news` check. -/
def handleImageMessage (evt : MessageEvent) (download : DownloadOutcome)
    (http : HTTPOutcome) : List BotAction :=
  if !evt.message.imageMessage then []
  else
    match download with
    | DownloadOutcome.err =>
      [BotAction.sendReply evt.info.chat (sendMessage evt errDownload)]
    | DownloadOutcome.ok data =>
      BotAction.callImageBackend data ::
        match analyzeImage data http with
        | Except.error _ =>
          [BotAction.sendReply evt.info.chat (sendMessage evt errImageAnalyze)]
        | Except.ok result =>
          [BotAction.sendReply evt.info.chat (sendMessage evt (formatResponse result))]

/-- `handleMessage` (main.go lines 205-247): dispatch images to
`handleImageMessage`; extract the text; drop it silently when `len(text) <
10` (Go `len` counts UTF-8 bytes); call the text backend; fixed error reply
on failure; silently drop when the verdict is not news; otherwise send the
formatted card. -/
def handleMessage (evt : MessageEvent) (download : DownloadOutcome)
    (http : HTTPOutcome) : List BotAction :=
  if evt.message.imageMessage then handleImageMessage evt download http
  else
    let text := extractText evt.message
    if text.utf8ByteSize < 10 then []
    else
      BotAction.callTextBackend text ::
        match analyzeText text http with
        | Except.error _ =>
          [BotAction.sendReply evt.info.chat (sendMessage evt errTextBackend)]
        | Except.ok result =>
          if !result.is_news then []
          else [BotAction.sendReply evt.info.chat (sendMessage evt (formatResponse result))]

/-- The events dispatched to `eventHandler` (main.go lines 302-316). -/
inductive WAEvent where
  | message (v : MessageEvent)
  | connected
  | disconnected
  | loggedOut

/-- `eventHandler` (main.go lines 302-316): only `events.Message` from
others (not `IsFromMe`) is handled; connection events only log. -/
def eventHandler (evt : WAEvent) (download : DownloadOutcome)
    (http : HTTPOutcome) : List BotAction :=
  match evt with
  | WAEvent.message v =>
    if !v.info.isFromMe then handleMessage v download http else []
  | _ => []

/-- The bot configuration (main.go lines 25-27). -/
structure Config where
  BackendURL : String
deriving DecidableEq, Repr

/-- `getEnv` (main.go lines 57-62): the environment value when non-empty
(`os.Getenv` returns `""` for an unset variable), else the default.
`osEnv` stands for `os.Getenv`. -/
def getEnv (osEnv : String → String) (key defaultValue : String) : String :=
  if osEnv key ≠ "" then osEnv key else defaultValue

/-- `init` (main.go lines 51-55): the backend URL comes from `BACKEND_URL`
with default `http://localhost:8000`. -/
def initConfig (osEnv : String → String) : Config :=
  { BackendURL := getEnv osEnv "BACKEND_URL" "http://localhost:8000" }

/-- The URL targeted by `analyzeText` (main.go line 73):
`Sprintf("%s/analyze/text", config.BackendURL)`. -/
def analyzeTextURL (config : Config) : String :=
  config.BackendURL ++ "/analyze/text"

/-- The URL targeted by `analyzeImage` (main.go line 179):
`Sprintf("%s/analyze/image", config.BackendURL)`. -/
def analyzeImageURL (config : Config) : String :=
  config.BackendURL ++ "/analyze/image"

end Aletheia

namespace Aletheia

/-! ### Sample data used by witnesses and counterexamples -/

/-- Sample message info of an inbound message from another account. -/
def sampleTextInfo : MessageInfo :=
  { id := "3EB0C431",
    sender := "15551234567@s.whatsapp.net",
    chat := "15551234567@s.whatsapp.net",
    isFromMe := false }

/-- Sample inbound text event with a message of at least 10 bytes. -/
def sampleTextEvent : MessageEvent :=
  { info := sampleTextInfo,
    message := { imageMessage := false,
                 conversation := "Breaking: the moon is made of cheese",
                 extendedText := none } }

/-- Sample inbound text event with a 2-byte message. -/
def sampleShortEvent : MessageEvent :=
  { info := sampleTextInfo,
    message := { imageMessage := false, conversation := "hi", extendedText := none } }

/-- Sample inbound image event. -/
def sampleImageEvent : MessageEvent :=
  { info := sampleTextInfo,
    message := { imageMessage := true, conversation := "", extendedText := none } }

/-- Sample self-originated event. -/
def sampleSelfEvent : MessageEvent :=
  { info := { id := "3EB0C432",
              sender := "bot@s.whatsapp.net",
              chat := "15551234567@s.whatsapp.net",
              isFromMe := true },
    message := { imageMessage := false,
                 conversation := "An automated reply of more than ten bytes",
                 extendedText := none } }

/-- A backend verdict with `is_news = false`. -/
def verdictNotNews : AnalyzeResponse :=
  { is_misinformation := false, confidence := 9/10, is_news := false,
    summary := "Casual chatter", evidence := [], sources_checked := [],
    recommendation := "", message_type := "text" }

/-- A backend verdict with `is_news = true` and high confidence. -/
def verdictNews : AnalyzeResponse :=
  { is_misinformation := true, confidence := 85/100, is_news := true,
    summary := "Claim needs checking",
    evidence := ["e1", "e2", "e3", "e4"],
    sources_checked := ["s1"],
    recommendation := "Verify before sharing", message_type := "text" }

/-! ### Helper lemmas -/

/-- The bullet loop starting at index `i` renders `min (3 - i) l.length`
items. -/
theorem bulletItems_length_eq (l : List String) :
    ∀ i : Nat, (bulletItems i l).length = min (3 - i) l.length := by
  induction l with
  | nil => intro i; simp [bulletItems]
  | cons e rest ih =>
    intro i
    by_cases h : i ≥ 3
    · simp only [bulletItems, if_pos h, List.length_nil, List.length_cons]
      omega
    · simp only [bulletItems, if_neg h, List.length_cons, ih (i + 1)]
      omega

/-- Truncation toward zero agrees with the floor on nonnegative rationals. -/
theorem goTrunc_eq_floor (q : ℚ) (h : 0 ≤ q) : goTrunc q = Int.floor q := by
  simp [goTrunc, not_lt.mpr h]

/-- Block counts of the confidence bar for each possible filled count. -/
theorem confidenceBar_count : ∀ k : Nat, k < 11 →
    (confidenceBar (k : Int)).toList.count '█' = k ∧
    (confidenceBar (k : Int)).toList.count '░' = 10 - k := by decide

/-! ### Claim theorems -/

/-- Claim C1, counterexample: on the image path the bot sends a reply even
when the backend verdict has `is_news = false`, so a backend response with
`is_news = false` does result in a sent message. -/
theorem image_reply_despite_not_news :
    verdictNotNews.is_news = false ∧
    (handleMessage sampleImageEvent (DownloadOutcome.ok [255, 216])
      (HTTPOutcome.response 200 (some verdictNotNews))).countP isSendAction = 1 :=
  ⟨rfl, rfl⟩

/-- Claim C1, amended: on the *text* path, a successful backend response
with `is_news = false` never produces an outbound reply — the message is
silently dropped. (The image path replies regardless of `is_news`.) -/
theorem text_path_not_news_no_reply (evt : MessageEvent) (d : DownloadOutcome)
    (r : AnalyzeResponse) (himg : evt.message.imageMessage = false)
    (hnews : r.is_news = false) :
    (handleMessage evt d (HTTPOutcome.response 200 (some r))).countP isSendAction = 0 := by
  simp only [handleMessage, himg, Bool.false_eq_true, if_false]
  split
  · simp
  · simp [analyzeText, hnews, isSendAction]

/-- Witness for `text_path_not_news_no_reply` at a concrete event and
verdict. -/
theorem text_path_not_news_no_reply_witness :
    (handleMessage sampleTextEvent DownloadOutcome.err
      (HTTPOutcome.response 200 (some verdictNotNews))).countP isSendAction = 0 :=
  text_path_not_news_no_reply sampleTextEvent DownloadOutcome.err verdictNotNews rfl rfl

/-- Claim C2, counterexample: the length gate compares Go `len`, i.e. UTF-8
*bytes*, not characters. The 5-character text `ñññññ` occupies 10 bytes, so
a text shorter than 10 characters does trigger a backend call. -/
theorem short_char_text_still_calls_backend :
    ("ñññññ" : String).length < 10 ∧
    BotAction.callTextBackend "ñññññ" ∈
      handleMessage
        { info := { id := "ID1", sender := "a@s.whatsapp.net",
                    chat := "a@s.whatsapp.net", isFromMe := false },
          message := { imageMessage := false, conversation := "ñññññ",
                       extendedText := none } }
        DownloadOutcome.err HTTPOutcome.networkError := by
  constructor
  · decide
  · decide

/-- Claim C2, amended: for a non-image message, if the extracted text is
shorter than 10 *UTF-8 bytes* the handler performs no backend call and
sends nothing (it returns no actions at all); if the text is at least 10
bytes the first action is the backend text call with that text. -/
theorem length_gate_bytes (evt : MessageEvent) (d : DownloadOutcome)
    (h : HTTPOutcome) (himg : evt.message.imageMessage = false) :
    ((extractText evt.message).utf8ByteSize < 10 → handleMessage evt d h = []) ∧
    (10 ≤ (extractText evt.message).utf8ByteSize →
      ∃ rest, handleMessage evt d h =
        BotAction.callTextBackend (extractText evt.message) :: rest) := by
  constructor
  · intro hlen
    simp [handleMessage, himg, hlen]
  · intro hlen
    refine ⟨(match analyzeText (extractText evt.message) h with
      | Except.error _ =>
        [BotAction.sendReply evt.info.chat (sendMessage evt errTextBackend)]
      | Except.ok result =>
        if !result.is_news then []
        else [BotAction.sendReply evt.info.chat
               (sendMessage evt (formatResponse result))]), ?_⟩
    simp [handleMessage, himg, not_lt.mpr hlen]

/-- Witness for `length_gate_bytes`: a 2-byte message yields no actions. -/
theorem length_gate_bytes_witness :
    handleMessage sampleShortEvent DownloadOutcome.err HTTPOutcome.networkError = [] :=
  (length_gate_bytes sampleShortEvent DownloadOutcome.err HTTPOutcome.networkError rfl).1
    (by decide)

/-- Claim C3, confirmed: for a confidence in `[0, 1]` the confidence bar of
the formatted reply (built by `confidenceLine` inside `formatResponse` as
`confidenceBar (goTrunc (confidence * 10))`) is exactly 10 characters long,
with exactly `⌊confidence * 10⌋` filled blocks `█` and the remaining
blocks empty `░`. -/
theorem confidence_bar_blocks (r : AnalyzeResponse) (h0 : 0 ≤ r.confidence)
    (h1 : r.confidence ≤ 1) :
    (confidenceBar (goTrunc (r.confidence * 10))).length = 10 ∧
    (confidenceBar (goTrunc (r.confidence * 10))).toList.count '█'
      = (Int.floor (r.confidence * 10)).toNat ∧
    (confidenceBar (goTrunc (r.confidence * 10))).toList.count '░'
      = 10 - (Int.floor (r.confidence * 10)).toNat := by
  have hq : (0 : ℚ) ≤ r.confidence * 10 := by positivity
  have hfl : 0 ≤ Int.floor (r.confidence * 10) := Int.floor_nonneg.mpr hq
  have hub : Int.floor (r.confidence * 10) ≤ 10 := by
    have h10 : r.confidence * 10 ≤ 10 := by nlinarith
    calc Int.floor (r.confidence * 10) ≤ Int.floor ((10 : ℚ)) := Int.floor_le_floor h10
      _ = 10 := by norm_num
  have hk : (Int.floor (r.confidence * 10)).toNat < 11 := by omega
  have hcast : ((Int.floor (r.confidence * 10)).toNat : Int)
      = Int.floor (r.confidence * 10) := Int.toNat_of_nonneg hfl
  have hb := confidenceBar_count (Int.floor (r.confidence * 10)).toNat hk
  rw [hcast] at hb
  rw [goTrunc_eq_floor _ hq]
  exact ⟨rfl, hb.1, hb.2⟩

/-- Witness for `confidence_bar_blocks` at confidence `7/10`. -/
theorem confidence_bar_blocks_witness :
    (confidenceBar (goTrunc ((7/10 : ℚ) * 10))).length = 10 ∧
    (confidenceBar (goTrunc ((7/10 : ℚ) * 10))).toList.count '█'
      = (Int.floor ((7/10 : ℚ) * 10)).toNat ∧
    (confidenceBar (goTrunc ((7/10 : ℚ) * 10))).toList.count '░'
      = 10 - (Int.floor ((7/10 : ℚ) * 10)).toNat :=
  confidence_bar_blocks
    { is_misinformation := true, confidence := 7/10, is_news := true,
      summary := "", evidence := [], sources_checked := [],
      recommendation := "", message_type := "text" }
    (by show (0 : ℚ) ≤ 7/10; norm_num) (by show (7/10 : ℚ) ≤ 1; norm_num)

/-- Claim C4, confirmed: every user-facing text sent by the handler is one
of the three fixed emoji-prefixed error strings or a formatted verdict
card; and on the text path a non-200 backend status yields exactly the
backend call followed by the generic connection-error reply — one send, no
retry. (The handler is a total function: every failure is handled, none
crashes.) -/
theorem error_replies_fixed_strings (evt : MessageEvent) (d : DownloadOutcome)
    (h : HTTPOutcome) :
    (∀ c m, BotAction.sendReply c m ∈ handleMessage evt d h →
      m.text = errTextBackend ∨ m.text = errDownload ∨ m.text = errImageAnalyze ∨
      ∃ r, m.text = formatResponse r) ∧
    (evt.message.imageMessage = false → 10 ≤ (extractText evt.message).utf8ByteSize →
      ∀ status body, status ≠ 200 →
        handleMessage evt d (HTTPOutcome.response status body) =
          [BotAction.callTextBackend (extractText evt.message),
           BotAction.sendReply evt.info.chat (sendMessage evt errTextBackend)]) := by
  constructor
  · intro c m hm
    unfold handleMessage handleImageMessage at hm
    repeat' split at hm <;> simp_all [sendMessage]
  · intro himg hlen status body hstatus
    simp [handleMessage, himg, not_lt.mpr hlen, analyzeText, hstatus]

/-- Witness for `error_replies_fixed_strings`: a 500 status on the text
path produces exactly the backend call and the connection-error reply. -/
theorem error_replies_fixed_strings_witness :
    handleMessage sampleTextEvent DownloadOutcome.err (HTTPOutcome.response 500 none) =
      [BotAction.callTextBackend (extractText sampleTextEvent.message),
       BotAction.sendReply sampleTextEvent.info.chat
         (sendMessage sampleTextEvent errTextBackend)] :=
  (error_replies_fixed_strings sampleTextEvent DownloadOutcome.err
    (HTTPOutcome.response 500 none)).2 rfl (by decide) 500 none (by decide)

/-- Claim C5, confirmed: the evidence and source sections of the formatted
reply display exactly `min 3 (length)` bullets — at most 3, regardless of
the lengths of `evidence` and `sources_checked`. `formatResponse` renders
precisely `bulletItems 0 result.evidence` and
`bulletItems 0 result.sources_checked` (see `evidenceSection` and
`sourcesSection`). -/
theorem bullet_truncation (r : AnalyzeResponse) :
    (bulletItems 0 r.evidence).length = min 3 r.evidence.length ∧
    (bulletItems 0 r.sources_checked).length = min 3 r.sources_checked.length ∧
    (bulletItems 0 r.evidence).length ≤ 3 ∧
    (bulletItems 0 r.sources_checked).length ≤ 3 := by
  have h1 := bulletItems_length_eq r.evidence 0
  have h2 := bulletItems_length_eq r.sources_checked 0
  refine ⟨h1, h2, ?_, ?_⟩ <;> omega

/-- Claim C6, confirmed: a self-originated message event is ignored: the
event handler performs no backend call and sends no reply. -/
theorem self_event_ignored (v : MessageEvent) (d : DownloadOutcome)
    (h : HTTPOutcome) (hv : v.info.isFromMe = true) :
    eventHandler (WAEvent.message v) d h = [] := by
  simp [eventHandler, hv]

/-- Witness for `self_event_ignored` at a concrete self event. -/
theorem self_event_ignored_witness :
    eventHandler (WAEvent.message sampleSelfEvent) DownloadOutcome.err
      HTTPOutcome.networkError = [] :=
  self_event_ignored sampleSelfEvent DownloadOutcome.err HTTPOutcome.networkError rfl

/-- Claim C7, confirmed: every outbound reply produced by the message
handler is a quoted reply: its context info carries the original message's
id as stanza id, the original sender as participant, and quotes the
original message; it is sent to the originating chat. -/
theorem reply_quotes_original (evt : MessageEvent) (d : DownloadOutcome)
    (h : HTTPOutcome) (c : String) (m : OutboundMessage)
    (hm : BotAction.sendReply c m ∈ handleMessage evt d h) :
    m.contextInfo.stanzaID = evt.info.id ∧
    m.contextInfo.participant = evt.info.sender ∧
    m.contextInfo.quotedMessage = evt.message ∧
    c = evt.info.chat := by
  unfold handleMessage handleImageMessage at hm
  repeat' split at hm <;> simp_all [sendMessage]

/-- Witness for `reply_quotes_original`: the download-error reply to a
concrete image event quotes that event. -/
theorem reply_quotes_original_witness :
    (sendMessage sampleImageEvent errDownload).contextInfo.stanzaID
      = sampleImageEvent.info.id ∧
    (sendMessage sampleImageEvent errDownload).contextInfo.participant
      = sampleImageEvent.info.sender ∧
    (sendMessage sampleImageEvent errDownload).contextInfo.quotedMessage
      = sampleImageEvent.message ∧
    sampleImageEvent.info.chat = sampleImageEvent.info.chat :=
  reply_quotes_original sampleImageEvent DownloadOutcome.err HTTPOutcome.networkError
    sampleImageEvent.info.chat (sendMessage sampleImageEvent errDownload) (by decide)

/-- Claim C8, confirmed: the backend URL is `BACKEND_URL` when that
environment variable is set to a non-empty value and
`http://localhost:8000` otherwise, and both backend endpoints extend the
configured URL. -/
theorem backend_url_config (osEnv : String → String) :
    (osEnv "BACKEND_URL" = "" →
      (initConfig osEnv).BackendURL = "http://localhost:8000") ∧
    (osEnv "BACKEND_URL" ≠ "" →
      (initConfig osEnv).BackendURL = osEnv "BACKEND_URL") ∧
    (∀ config : Config,
      analyzeTextURL config = config.BackendURL ++ "/analyze/text" ∧
      analyzeImageURL config = config.BackendURL ++ "/analyze/image") := by
  refine ⟨?_, ?_, ?_⟩
  · intro h
    simp [initConfig, getEnv, h]
  · intro h
    simp [initConfig, getEnv, h]
  · intro config
    exact ⟨rfl, rfl⟩

/-- Witness for `backend_url_config`: with an empty environment the URL is
the default, and the text endpoint extends it. -/
theorem backend_url_config_witness :
    (initConfig (fun _ => "")).BackendURL = "http://localhost:8000" ∧
    analyzeTextURL { BackendURL := "http://localhost:8000" }
      = "http://localhost:8000" ++ "/analyze/text" :=
  ⟨(backend_url_config (fun _ => "")).1 rfl,
   ((backend_url_config (fun _ => "")).2.2 { BackendURL := "http://localhost:8000" }).1⟩

/-- Claim C9, confirmed: an image message from another sender always
produces exactly one outbound reply; when download and backend call succeed
the reply is the formatted card irrespective of `is_news`, and a download
failure yields the fixed download-error reply. No length gate applies to
images. -/
theorem image_message_one_reply (evt : MessageEvent) (d : DownloadOutcome)
    (h : HTTPOutcome) (hfm : evt.info.isFromMe = false)
    (himg : evt.message.imageMessage = true) :
    ((eventHandler (WAEvent.message evt) d h).countP isSendAction = 1) ∧
    (∀ data r, d = DownloadOutcome.ok data → h = HTTPOutcome.response 200 (some r) →
      eventHandler (WAEvent.message evt) d h =
        [BotAction.callImageBackend data,
         BotAction.sendReply evt.info.chat (sendMessage evt (formatResponse r))]) ∧
    (d = DownloadOutcome.err →
      eventHandler (WAEvent.message evt) d h =
        [BotAction.sendReply evt.info.chat (sendMessage evt errDownload)]) := by
  have hh : eventHandler (WAEvent.message evt) d h = handleImageMessage evt d h := by
    simp [eventHandler, hfm, handleMessage, himg]
  refine ⟨?_, ?_, ?_⟩
  · rw [hh]
    unfold handleImageMessage
    rw [himg]
    cases d with
    | err => simp [isSendAction]
    | ok data =>
      cases hA : analyzeImage data h <;> simp [hA, isSendAction]
  · intro data r hd hhtp
    subst hd; subst hhtp
    rw [hh]
    simp [handleImageMessage, himg, analyzeImage]
  · intro hd
    subst hd
    rw [hh]
    simp [handleImageMessage, himg]

/-- Witness for `image_message_one_reply`: a successful image analysis with
a concrete verdict yields exactly the backend call and the card reply. -/
theorem image_message_one_reply_witness :
    eventHandler (WAEvent.message sampleImageEvent) (DownloadOutcome.ok [255, 216])
      (HTTPOutcome.response 200 (some verdictNews)) =
      [BotAction.callImageBackend [255, 216],
       BotAction.sendReply sampleImageEvent.info.chat
         (sendMessage sampleImageEvent (formatResponse verdictNews))] :=
  (image_message_one_reply sampleImageEvent (DownloadOutcome.ok [255, 216])
    (HTTPOutcome.response 200 (some verdictNews)) rfl rfl).2.1
    [255, 216] verdictNews rfl rfl

/-- Claim C10, confirmed: the emoji and status label are determined exactly
by the verdict — `✅ APPEARS CREDIBLE` when not misinformation,
`🚨 LIKELY MISINFORMATION` when misinformation with confidence strictly
above `0.7`, `⚠️ POTENTIALLY MISLEADING` when misinformation otherwise —
and the formatted card opens with that emoji and status. -/
theorem verdict_emoji_mapping (r : AnalyzeResponse) :
    (r.is_misinformation = false →
      verdictEmojiStatus r = ("✅", "APPEARS CREDIBLE")) ∧
    (r.is_misinformation = true → 7/10 < r.confidence →
      verdictEmojiStatus r = ("🚨", "LIKELY MISINFORMATION")) ∧
    (r.is_misinformation = true → r.confidence ≤ 7/10 →
      verdictEmojiStatus r = ("⚠️", "POTENTIALLY MISLEADING")) ∧
    (∃ rest, formatResponse r =
      (verdictEmojiStatus r).1 ++ " *" ++ (verdictEmojiStatus r).2 ++ "*" ++ rest) := by
  refine ⟨?_, ?_, ?_, ?_⟩
  · intro h
    simp [verdictEmojiStatus, h]
  · intro h1 h2
    simp [verdictEmojiStatus, h1, h2]
  · intro h1 h2
    simp [verdictEmojiStatus, h1, if_neg (not_lt.mpr h2)]
  · refine ⟨confidenceLine r ++ summarySection r ++ evidenceSection r
      ++ sourcesSection r ++ recommendationSection r
      ++ "\n_Always verify important news from multiple credible sources._", ?_⟩
    simp [formatResponse, cardHeader, String.append_assoc]

/-- Witness for `verdict_emoji_mapping`: a misinformation verdict with
confidence `0.85 > 0.7` opens with the red-alert emoji and status. -/
theorem verdict_emoji_mapping_witness :
    verdictEmojiStatus verdictNews = ("🚨", "LIKELY MISINFORMATION") :=
  (verdict_emoji_mapping verdictNews).2.1 rfl
    (by show (7/10 : ℚ) < 85/100; norm_num)

end Aletheia
